import Mathlib

/-
Shallow embedding of the rexta ISA toolchain (https://github.com/jonathan-gaul/rexta):
the 24-bit integer primitive (src/u24.rs), the opcode table (src/op.rs), the CPU
fetch/decode/execute engine (src/cpu.rs) and the assembler's instruction AST and
encoder (src/bin/rexta-asm/ast.rs, assembler.rs).

Machine integers are modelled as Nat with explicit wrapping (% 2^w) exactly where
the Rust source wraps (wrapping_add / wrapping_sub / `as u8` casts / masks).
Array and slice indexing that can abort in Rust is modelled with Option / an
explicit `panicked` outcome: `none`-style results mark the places the Rust code
would abort the process (index out of bounds, `expect`, or an explicit abort).
-/

namespace Rexta

/-! ## U24 (src/u24.rs) -/

/-- 24-bit unsigned integer. The Rust struct wraps a `u32` that is masked to
`0x00FF_FFFF` on every construction; here the payload is a `Nat`. -/
structure U24 where
  val : Nat
deriving DecidableEq, Repr

namespace U24

/-- Rust `U24::MASK` -/
def MASK : Nat := 0x00FFFFFF

/-- Rust `U24::new`: mask the input to 24 bits. -/
def new (v : Nat) : U24 := ⟨v &&& MASK⟩

/-- Rust `u32` wrapping addition used by the `Add`/`AddAssign` impls. -/
def wadd32 (a b : Nat) : Nat := (a + b) % 2 ^ 32

/-- Rust `u32` wrapping subtraction used by the `Sub`/`SubAssign` impls. -/
def wsub32 (a b : Nat) : Nat := (a + (2 ^ 32 - b % 2 ^ 32)) % 2 ^ 32

/-- Rust `impl Add for U24`: `U24::new(self.0.wrapping_add(rhs.0))`. -/
def add (a b : U24) : U24 := new (wadd32 a.val b.val)

/-- Rust `impl Add<u32> for U24`: `U24::new(self.0.wrapping_add(rhs & MASK))`. -/
def addU32 (a : U24) (rhs : Nat) : U24 := new (wadd32 a.val (rhs &&& MASK))

/-- Rust `impl Sub for U24`: `U24::new(self.0.wrapping_sub(rhs.0))`. -/
def sub (a b : U24) : U24 := new (wsub32 a.val b.val)

/-- Rust `impl Sub<u32> for U24`: `U24::new(self.0.wrapping_sub(rhs & MASK))`. -/
def subU32 (a : U24) (rhs : Nat) : U24 := new (wsub32 a.val (rhs &&& MASK))

/-- Rust `impl AddAssign<u32> for U24`: `(self.0.wrapping_add(rhs & MASK)) & MASK`. -/
def addAssignU32 (a : U24) (rhs : Nat) : U24 := ⟨wadd32 a.val (rhs &&& MASK) &&& MASK⟩

/-- Rust `impl SubAssign<u32> for U24`: `(self.0.wrapping_sub(rhs & MASK)) & MASK`. -/
def subAssignU32 (a : U24) (rhs : Nat) : U24 := ⟨wsub32 a.val (rhs &&& MASK) &&& MASK⟩

/-- Rust `impl Shl<u32> for U24`: `U24::new(self.0 << rhs)`. -/
def shl (a : U24) (rhs : Nat) : U24 := new (a.val <<< rhs)

/-- Rust `impl BitOr for U24`: `U24::new(self.0 | rhs.0)`. -/
def bitor (a b : U24) : U24 := new (a.val ||| b.val)

/-- Rust `U24::to_le_bytes`. -/
def to_le_bytes (a : U24) : List Nat :=
  [a.val &&& 0xFF, (a.val >>> 8) &&& 0xFF, (a.val >>> 16) &&& 0xFF]

/-- Rust `U24::from_le_bytes` (note: this one shifts the third byte left by 16). -/
def from_le_bytes (b0 b1 b2 : Nat) : U24 := new (b0 ||| (b1 <<< 8) ||| (b2 <<< 16))

end U24

/-! ## Opcode table (src/op.rs) -/

/-- Rust `OpCode`: the 81 operation variants with their manually assigned `u16` codes
(carried by `toCode`). -/
inductive OpCode where
  | NOP | HLT | RTS
  | ADD1 | SUB1 | AND1 | OR1 | XOR1 | MOV1 | INC1 | DEC1 | NEG1 | NOT1
  | SHL1 | SHR1 | ROL1 | ROR1 | CMP1 | TST1 | PUSH1 | POP1
  | ADD2 | SUB2 | AND2 | OR2 | XOR2 | MOV2 | INC2 | DEC2 | NEG2 | NOT2
  | SHL2 | SHR2 | ROL2 | ROR2 | CMP2 | TST2 | PUSH2 | POP2
  | ADD3 | SUB3 | AND3 | OR3 | XOR3 | MOV3 | INC3 | DEC3 | NEG3 | NOT3
  | SHL3 | SHR3 | ROL3 | ROR3 | CMP3 | TST3 | PUSH3 | POP3
  | LOADI1 | ADDI1
  | JMP | JZ | JNZ | JC | JNC | JSR
  | LOADI2 | ADDI2
  | JMPA | JZA | JNZA | JCA | JNCA | JSRA
  | LOAD1 | STORE1 | LOAD2 | STORE2 | LOADI3 | LOAD3 | STORE3 | ADDI3
deriving DecidableEq, Repr, Fintype

namespace OpCode

/-- The numeric code of each variant (`#[repr(u16)]` discriminants in src/op.rs). -/
def toCode : OpCode → Nat
  | NOP => 0x0000
  | HLT => 0x0004
  | RTS => 0x0008
  | ADD1 => 0x0201 | SUB1 => 0x0205 | AND1 => 0x0209 | OR1 => 0x020D
  | XOR1 => 0x0211 | MOV1 => 0x0215 | INC1 => 0x0219 | DEC1 => 0x021D
  | NEG1 => 0x0221 | NOT1 => 0x0225 | SHL1 => 0x0229 | SHR1 => 0x022D
  | ROL1 => 0x0231 | ROR1 => 0x0235 | CMP1 => 0x0239 | TST1 => 0x023D
  | PUSH1 => 0x0241 | POP1 => 0x0245
  | ADD2 => 0x0202 | SUB2 => 0x0206 | AND2 => 0x020A | OR2 => 0x020E
  | XOR2 => 0x0212 | MOV2 => 0x0216 | INC2 => 0x021A | DEC2 => 0x021E
  | NEG2 => 0x0222 | NOT2 => 0x0226 | SHL2 => 0x022A | SHR2 => 0x022E
  | ROL2 => 0x0232 | ROR2 => 0x0236 | CMP2 => 0x023A | TST2 => 0x023E
  | PUSH2 => 0x0242 | POP2 => 0x0246
  | ADD3 => 0x0203 | SUB3 => 0x0207 | AND3 => 0x020B | OR3 => 0x020F
  | XOR3 => 0x0213 | MOV3 => 0x0217 | INC3 => 0x021B | DEC3 => 0x021F
  | NEG3 => 0x0223 | NOT3 => 0x0227 | SHL3 => 0x022B | SHR3 => 0x022F
  | ROL3 => 0x0233 | ROR3 => 0x0237 | CMP3 => 0x023B | TST3 => 0x023F
  | PUSH3 => 0x0243 | POP3 => 0x0247
  | LOADI1 => 0x0401 | ADDI1 => 0x0449
  | JMP => 0x0600 | JZ => 0x0604 | JNZ => 0x0608 | JC => 0x060C
  | JNC => 0x0610 | JSR => 0x0614
  | LOADI2 => 0x0602 | ADDI2 => 0x064E
  | JMPA => 0x0603 | JZA => 0x0607 | JNZA => 0x060B | JCA => 0x060F
  | JNCA => 0x0613 | JSRA => 0x0617
  | LOAD1 => 0x0805 | STORE1 => 0x0809 | LOAD2 => 0x0806 | STORE2 => 0x080A
  | LOADI3 => 0x0803 | LOAD3 => 0x0807 | STORE3 => 0x080B | ADDI3 => 0x0853

/-- Rust `impl TryFrom<u16> for OpCode`. The match in src/op.rs lists every code
except `0x0000` (NOP); everything else is `Err(())`, here `none`. -/
def tryFromU16 (value : Nat) : Option OpCode :=
  match value with
  | 0x0004 => some HLT
  | 0x0008 => some RTS
  | 0x0201 => some ADD1 | 0x0205 => some SUB1 | 0x0209 => some AND1
  | 0x020D => some OR1 | 0x0211 => some XOR1 | 0x0215 => some MOV1
  | 0x0219 => some INC1 | 0x021D => some DEC1 | 0x0221 => some NEG1
  | 0x0225 => some NOT1 | 0x0229 => some SHL1 | 0x022D => some SHR1
  | 0x0231 => some ROL1 | 0x0235 => some ROR1 | 0x0239 => some CMP1
  | 0x023D => some TST1 | 0x0241 => some PUSH1 | 0x0245 => some POP1
  | 0x0202 => some ADD2 | 0x0206 => some SUB2 | 0x020A => some AND2
  | 0x020E => some OR2 | 0x0212 => some XOR2 | 0x0216 => some MOV2
  | 0x021A => some INC2 | 0x021E => some DEC2 | 0x0222 => some NEG2
  | 0x0226 => some NOT2 | 0x022A => some SHL2 | 0x022E => some SHR2
  | 0x0232 => some ROL2 | 0x0236 => some ROR2 | 0x023A => some CMP2
  | 0x023E => some TST2 | 0x0242 => some PUSH2 | 0x0246 => some POP2
  | 0x0203 => some ADD3 | 0x0207 => some SUB3 | 0x020B => some AND3
  | 0x020F => some OR3 | 0x0213 => some XOR3 | 0x0217 => some MOV3
  | 0x021B => some INC3 | 0x021F => some DEC3 | 0x0223 => some NEG3
  | 0x0227 => some NOT3 | 0x022B => some SHL3 | 0x022F => some SHR3
  | 0x0233 => some ROL3 | 0x0237 => some ROR3 | 0x023B => some CMP3
  | 0x023F => some TST3 | 0x0243 => some PUSH3 | 0x0247 => some POP3
  | 0x0401 => some LOADI1 | 0x0449 => some ADDI1
  | 0x0600 => some JMP | 0x0604 => some JZ | 0x0608 => some JNZ
  | 0x060C => some JC | 0x0610 => some JNC | 0x0614 => some JSR
  | 0x0602 => some LOADI2 | 0x064E => some ADDI2
  | 0x0603 => some JMPA | 0x0607 => some JZA | 0x060B => some JNZA
  | 0x060F => some JCA | 0x0613 => some JNCA | 0x0617 => some JSRA
  | 0x0805 => some LOAD1 | 0x0809 => some STORE1
  | 0x0806 => some LOAD2 | 0x080A => some STORE2
  | 0x0803 => some LOADI3 | 0x0807 => some LOAD3 | 0x080B => some STORE3
  | 0x0853 => some ADDI3
  | _ => none

end OpCode

/-- Rust `Op` (src/op.rs): the decoded operation descriptor — a code plus four
operand bytes (`[u8; 4]`, modelled as a total byte map; every access in the
source stays within indices 0..3). -/
structure Op where
  code : OpCode
  operands : Nat → Nat

namespace Op

/-- Rust `Op::new()`: no-op with zeroed operands. -/
def new : Op := ⟨OpCode.NOP, fun _ => 0⟩

/-- Rust `Op::rd`: destination register, high nibble of operand byte 0. -/
def rd (o : Op) : Nat := (o.operands 0 &&& 0xF0) >>> 4

/-- Rust `Op::rs`: source register, low nibble of operand byte 0. -/
def rs (o : Op) : Nat := o.operands 0 &&& 0x0F

/-- Rust `Op::read_u8` (called `read_op` at its use sites in src/cpu.rs). -/
def read_u8 (o : Op) (index : Nat) : Nat := o.operands index

/-- Rust `Op::read_u16` (called `read_op2` at its use sites in src/cpu.rs):
little-endian pair. -/
def read_u16 (o : Op) (index : Nat) : Nat :=
  o.operands index ||| (o.operands (index + 1)) <<< 8

/-- Rust `Op::read_u24` (called `read_op3` at its use sites in src/cpu.rs).
NOTE: the source combines the third byte WITHOUT a `<< 16` shift:
`operands[i] | operands[i+1] << 8 | operands[i+2]`. -/
def read_u24 (o : Op) (index : Nat) : U24 :=
  U24.new (o.operands index ||| (o.operands (index + 1)) <<< 8 ||| o.operands (index + 2))

end Op

/-! ## CPU (src/cpu.rs) -/

/-- Rust `CpuError` (src/cpu.rs). Note: `InvalidOpCode` carries only the raw code. -/
inductive CpuError where
  | InvalidOpCode (code : Nat)
  | InvalidInstruction
deriving DecidableEq, Repr

/-- Rust `Cpu` (src/cpu.rs). `mem` models `[u8; 65536]` and `regs` models `[u8; 9]`
as total byte maps; all indexing in the operational definitions below carries
the explicit bounds checks the Rust indexing performs (out of bounds ⇒ abort). -/
structure Cpu where
  pc : U24
  mem : Nat → Nat
  regs : Nat → Nat
  flags : Nat
  sp : U24
  isRunning : Bool
  ir : Nat
  ic : U24

namespace Cpu

/-- Rust `Cpu::FLAG_ZERO` -/
def FLAG_ZERO : Nat := 0x01

/-- Rust `Cpu::FLAG_CARRY` -/
def FLAG_CARRY : Nat := 0x02

/-- Rust `MEM_SIZE`: the backing array length (64 KiB). -/
def MEM_SIZE : Nat := 65536

/-- Rust `REG_COUNT`: the register file length. -/
def REG_COUNT : Nat := 9

/-- Rust `Cpu::new()`. -/
def new : Cpu :=
  { pc := U24.new 0
    mem := fun _ => 0
    regs := fun _ => 0
    flags := 0
    sp := U24.new 0xFFFE
    isRunning := false
    ir := 0
    ic := U24.new 0 }

/-- Rust `Cpu::mem_read`: `self.mem[addr]`; indexing aborts out of bounds (`none`). -/
def memRead (c : Cpu) (addr : U24) : Option Nat :=
  if addr.val < MEM_SIZE then some (c.mem addr.val) else none

/-- Rust `Cpu::mem_write`. -/
def memWrite (c : Cpu) (addr : U24) (v : Nat) : Option Cpu :=
  if addr.val < MEM_SIZE then
    some { c with mem := fun i => if i = addr.val then v else c.mem i }
  else none

/-- Rust `Cpu::mem_write2`: two little-endian bytes at `pos..pos+2`. -/
def memWrite2 (c : Cpu) (addr : U24) (v : Nat) : Option Cpu :=
  if addr.val + 2 ≤ MEM_SIZE then
    some { c with mem := fun i =>
        if i = addr.val then v &&& 0xFF
        else if i = addr.val + 1 then (v >>> 8) &&& 0xFF
        else c.mem i }
  else none

/-- Rust `Cpu::mem_write3`: `val.to_le_bytes()` at `pos..pos+3`. -/
def memWrite3 (c : Cpu) (addr : U24) (v : U24) : Option Cpu :=
  if addr.val + 3 ≤ MEM_SIZE then
    some { c with mem := fun i =>
        if i = addr.val then v.val &&& 0xFF
        else if i = addr.val + 1 then (v.val >>> 8) &&& 0xFF
        else if i = addr.val + 2 then (v.val >>> 16) &&& 0xFF
        else c.mem i }
  else none

/-- Rust `Cpu::reg_read`. -/
def regRead (c : Cpu) (r : Nat) : Option Nat :=
  if r < REG_COUNT then some (c.regs r) else none

/-- Rust `Cpu::reg_read2`: `(regs[r+1] << 8) | regs[r]`. -/
def regRead2 (c : Cpu) (r : Nat) : Option Nat :=
  if r + 1 < REG_COUNT then some ((c.regs (r + 1)) <<< 8 ||| c.regs r) else none

/-- Rust `Cpu::reg_read3`: 3-byte little-endian slice `regs[r..r+3]`. -/
def regRead3 (c : Cpu) (r : Nat) : Option U24 :=
  if r + 3 ≤ REG_COUNT then
    some (U24.from_le_bytes (c.regs r) (c.regs (r + 1)) (c.regs (r + 2)))
  else none

/-- Rust `Cpu::reg_write`. -/
def regWrite (c : Cpu) (r : Nat) (v : Nat) : Option Cpu :=
  if r < REG_COUNT then
    some { c with regs := fun i => if i = r then v else c.regs i }
  else none

/-- Rust `Cpu::reg_write2`: low byte at `r`, high byte at `r+1`. -/
def regWrite2 (c : Cpu) (r : Nat) (v : Nat) : Option Cpu :=
  if r + 1 < REG_COUNT then
    some { c with regs := fun i =>
        if i = r then v &&& 0xFF
        else if i = r + 1 then (v &&& 0xFF00) >>> 8
        else c.regs i }
  else none

/-- Rust `Cpu::reg_write3`: `val.to_le_bytes()` into `regs[r..r+3]`. -/
def regWrite3 (c : Cpu) (r : Nat) (v : U24) : Option Cpu :=
  if r + 3 ≤ REG_COUNT then
    some { c with regs := fun i =>
        if i = r then v.val &&& 0xFF
        else if i = r + 1 then (v.val >>> 8) &&& 0xFF
        else if i = r + 2 then (v.val >>> 16) &&& 0xFF
        else c.regs i }
  else none

/-- Rust `Cpu::flag_read`: `self.flags & flag != 0`. -/
def flagRead (c : Cpu) (flag : Nat) : Bool :=
  c.flags &&& flag != 0

/-- Rust `Cpu::flag_write`: set with `|`, clear with `& !flag` (`u8` complement). -/
def flagWrite (c : Cpu) (flag : Nat) (val : Bool) : Cpu :=
  if val then { c with flags := c.flags ||| flag }
  else { c with flags := c.flags &&& (flag ^^^ 0xFF) }

/-- Rust `Cpu::fetch`: read the little-endian `u16` at `mem[pc..pc+2]` into `ir`
and advance PC by 2; the slice indexing aborts when `pc + 2 > 65536`. -/
def fetch (c : Cpu) : Option Cpu :=
  let pos := c.pc.val
  if pos + 2 ≤ MEM_SIZE then
    some { c with ir := c.mem pos ||| (c.mem (pos + 1)) <<< 8
                  pc := U24.addAssignU32 c.pc 2 }
  else none

/-- Operand-read loop of `Cpu::decode`: `for i in 0..operand_count
{ op.operands[i] = self.mem_read(self.pc); self.pc += 1; }`. -/
def readOperands : Nat → Nat → Cpu → Op → Option (Op × Cpu)
  | 0, _, c, op => some (op, c)
  | n + 1, i, c, op =>
    match memRead c c.pc with
    | none => none
    | some b =>
      readOperands n (i + 1) { c with pc := U24.addAssignU32 c.pc 1 }
        { op with operands := fun j => if j = i then b else op.operands j }

/-- Outcome of `Cpu::decode`: a descriptor, a typed fault, or a process abort. -/
inductive DecodeResult where
  | ok (op : Op) (c : Cpu)
  | fault (e : CpuError) (c : Cpu)
  | panicked

/-- Rust `Cpu::decode`: operand byte count `(ir & 0xE00) >> 9` (computed from the
code alone), opcode lookup via `TryFrom<u16>` (failure ⇒ `InvalidOpCode(ir)`),
then read that many operand bytes, advancing PC by one each. -/
def decode (c : Cpu) : DecodeResult :=
  let operand_count := (c.ir &&& 0xE00) >>> 9
  match OpCode.tryFromU16 c.ir with
  | none => .fault (.InvalidOpCode c.ir) c
  | some op_code =>
    match readOperands operand_count 0 c { Op.new with code := op_code } with
    | none => .panicked
    | some (op, c') => .ok op c'

/-- Rust `u16` wrapping subtraction (release semantics of `rdv - rsv` on `u16`). -/
def wsub16 (a b : Nat) : Nat := (a + (2 ^ 16 - b % 2 ^ 16)) % 2 ^ 16

/-- Rust `u32` wrapping subtraction (release semantics of `rdv - rsv` on `u32`). -/
def wsub32 (a b : Nat) : Nat := (a + (2 ^ 32 - b % 2 ^ 32)) % 2 ^ 32

/-- Rust `Cpu::execute` (src/cpu.rs). Every implemented arm returns `Ok(())` (`some`);
the catch-all arm `_ => panic!(..)` aborts the process, modelled as `none`,
as do the out-of-bounds register/memory accesses inside the arms. -/
def execute (c : Cpu) (op : Op) : Option Cpu :=
  match op.code with
  | .NOP => some c
  | .RTS => do
      -- Pop address from stack
      let c := { c with sp := U24.addAssignU32 c.sp 2 }
      let b2 ← memRead c (U24.subU32 c.sp 2)
      let b1 ← memRead c (U24.subU32 c.sp 1)
      let b0 ← memRead c c.sp
      let addr := U24.bitor (U24.bitor (U24.shl (U24.new b2) 16) (U24.shl (U24.new b1) 8))
        (U24.new b0)
      -- Jump to address
      some { c with pc := addr }
  | .HLT => some { c with isRunning := false }

  -- ADD
  | .ADD1 => do
      let rdv ← regRead c op.rd
      let rsv ← regRead c op.rs
      let value := rdv + rsv
      let c ← regWrite c op.rd (value % 256)
      let c := flagWrite c FLAG_ZERO (value % 256 == 0)
      some (flagWrite c FLAG_CARRY (value &&& 0x100 != 0))
  | .ADD2 => do
      let rdv ← regRead2 c op.rd
      let rsv ← regRead2 c op.rs
      let value := rdv + rsv
      let c ← regWrite2 c op.rd (value % 65536)
      let c := flagWrite c FLAG_ZERO (value % 65536 == 0)
      some (flagWrite c FLAG_CARRY (value &&& 0x10000 != 0))
  | .ADD3 => do
      let lhs ← regRead3 c op.rd
      let rhs ← regRead3 c op.rs
      let value := lhs.val + rhs.val
      let c ← regWrite3 c op.rd (U24.new value)
      let c := flagWrite c FLAG_ZERO (value &&& 0xFFFFFF == 0)
      some (flagWrite c FLAG_CARRY (value &&& 0x1000000 != 0))

  -- SUB
  | .SUB1 => do
      let rdv ← regRead c op.rd
      let rsv ← regRead c op.rs
      let value := wsub16 rdv rsv
      let c ← regWrite c op.rd (value % 256)
      let c := flagWrite c FLAG_ZERO (value % 256 == 0)
      some (flagWrite c FLAG_CARRY (decide (rdv < rsv)))
  | .SUB2 => do
      let rdv ← regRead2 c op.rd
      let rsv ← regRead2 c op.rs
      let value := wsub32 rdv rsv
      let c ← regWrite2 c op.rd (value % 65536)
      let c := flagWrite c FLAG_ZERO (value % 65536 == 0)
      some (flagWrite c FLAG_CARRY (decide (rdv < rsv)))
  | .SUB3 => do
      let rdv ← regRead3 c op.rd
      let rsv ← regRead3 c op.rs
      let value := U24.new (wsub32 rdv.val rsv.val)
      let c ← regWrite3 c op.rd value
      let c := flagWrite c FLAG_ZERO (value.val == 0)
      some (flagWrite c FLAG_CARRY (decide (rdv.val < rsv.val)))

  -- AND
  | .AND1 => do
      let rdv ← regRead c op.rd
      let rsv ← regRead c op.rs
      let value := rdv &&& rsv
      let c ← regWrite c op.rd value
      let c := flagWrite c FLAG_ZERO (value == 0)
      some (flagWrite c FLAG_CARRY false)
  | .AND2 => do
      let rdv ← regRead2 c op.rd
      let rsv ← regRead2 c op.rs
      let value := rdv &&& rsv
      let c ← regWrite2 c op.rd value
      let c := flagWrite c FLAG_ZERO (value == 0)
      some (flagWrite c FLAG_CARRY false)
  | .AND3 => do
      let rdv ← regRead3 c op.rd
      let rsv ← regRead3 c op.rs
      let value := U24.new (rdv.val &&& rsv.val)
      let c ← regWrite3 c op.rd value
      let c := flagWrite c FLAG_ZERO (value.val == 0)
      some (flagWrite c FLAG_CARRY false)

  -- OR
  | .OR1 => do
      let rdv ← regRead c op.rd
      let rsv ← regRead c op.rs
      let value := rdv ||| rsv
      let c ← regWrite c op.rd value
      let c := flagWrite c FLAG_ZERO (value == 0)
      some (flagWrite c FLAG_CARRY false)
  | .OR2 => do
      let rdv ← regRead2 c op.rd
      let rsv ← regRead2 c op.rs
      let value := rdv ||| rsv
      let c ← regWrite2 c op.rd value
      let c := flagWrite c FLAG_ZERO (value == 0)
      some (flagWrite c FLAG_CARRY false)
  | .OR3 => do
      let rdv ← regRead3 c op.rd
      let rsv ← regRead3 c op.rs
      let value := U24.new (rdv.val ||| rsv.val)
      let c ← regWrite3 c op.rd value
      let c := flagWrite c FLAG_ZERO (value.val == 0)
      some (flagWrite c FLAG_CARRY false)

  -- XOR
  | .XOR1 => do
      let rdv ← regRead c op.rd
      let rsv ← regRead c op.rs
      let value := rdv ^^^ rsv
      let c ← regWrite c op.rd value
      let c := flagWrite c FLAG_ZERO (value == 0)
      some (flagWrite c FLAG_CARRY false)
  | .XOR2 => do
      let rdv ← regRead2 c op.rd
      let rsv ← regRead2 c op.rs
      let value := rdv ^^^ rsv
      let c ← regWrite2 c op.rd value
      let c := flagWrite c FLAG_ZERO (value == 0)
      some (flagWrite c FLAG_CARRY false)
  | .XOR3 => do
      let rdv ← regRead3 c op.rd
      let rsv ← regRead3 c op.rs
      let value := U24.new (rdv.val ^^^ rsv.val)
      let c ← regWrite3 c op.rd value
      let c := flagWrite c FLAG_ZERO (value.val == 0)
      some (flagWrite c FLAG_CARRY false)

  -- NOT (u8/u16 complement; U24's Not masks to 24 bits)
  | .NOT1 => do
      let rdv ← regRead c op.rd
      let value := rdv ^^^ 0xFF
      let c ← regWrite c op.rd value
      let c := flagWrite c FLAG_ZERO (value == 0)
      some (flagWrite c FLAG_CARRY false)
  | .NOT2 => do
      let rdv ← regRead2 c op.rd
      let value := rdv ^^^ 0xFFFF
      let c ← regWrite2 c op.rd value
      let c := flagWrite c FLAG_ZERO (value == 0)
      some (flagWrite c FLAG_CARRY false)
  | .NOT3 => do
      let rdv ← regRead3 c op.rd
      let value := U24.new (rdv.val ^^^ 0xFFFFFFFF)
      let c ← regWrite3 c op.rd value
      let c := flagWrite c FLAG_ZERO (value.val == 0)
      some (flagWrite c FLAG_CARRY false)

  -- LOADI
  | .LOADI1 => do
      let imm := op.read_u8 1
      let c ← regWrite c op.rd imm
      let c := flagWrite c FLAG_ZERO (imm == 0)
      some (flagWrite c FLAG_CARRY false)
  | .LOADI2 => do
      let imm := op.read_u16 1
      let c ← regWrite2 c op.rd imm
      let c := flagWrite c FLAG_ZERO (imm == 0)
      some (flagWrite c FLAG_CARRY false)
  | .LOADI3 => do
      let imm := op.read_u24 1
      let c ← regWrite3 c op.rd imm
      let c := flagWrite c FLAG_ZERO (imm.val == 0)
      some (flagWrite c FLAG_CARRY false)

  -- ADDI
  | .ADDI1 => do
      let rdv ← regRead c op.rd
      let value := rdv + op.read_u8 1
      let c ← regWrite c op.rd (value &&& 0xFF)
      let c := flagWrite c FLAG_ZERO (value &&& 0xFF == 0)
      some (flagWrite c FLAG_CARRY (value &&& 0x100 != 0))
  | .ADDI2 => do
      let rdv ← regRead2 c op.rd
      let value := rdv + op.read_u16 1
      let c ← regWrite2 c op.rd (value &&& 0xFFFF)
      let c := flagWrite c FLAG_ZERO (value &&& 0xFFFF == 0)
      some (flagWrite c FLAG_CARRY (value &&& 0x10000 != 0))
  | .ADDI3 => do
      let rdv ← regRead3 c op.rd
      let value := rdv.val + (op.read_u24 1).val
      let c ← regWrite3 c op.rd (U24.new value)
      let c := flagWrite c FLAG_ZERO (value &&& 0xFFFFFF == 0)
      some (flagWrite c FLAG_CARRY (value &&& 0x1000000 != 0))

  -- INC
  | .INC1 => do
      let rdv ← regRead c op.rd
      let value := rdv + 1
      let c ← regWrite c op.rd (value &&& 0xFF)
      let c := flagWrite c FLAG_ZERO (value &&& 0xFF == 0)
      some (flagWrite c FLAG_CARRY (value &&& 0x100 != 0))
  | .INC2 => do
      let rdv ← regRead2 c op.rd
      let value := rdv + 1
      let c ← regWrite2 c op.rd (value &&& 0xFFFF)
      let c := flagWrite c FLAG_ZERO (value &&& 0xFFFF == 0)
      some (flagWrite c FLAG_CARRY (value &&& 0x10000 != 0))
  | .INC3 => do
      let rdv ← regRead3 c op.rd
      let value := rdv.val + 1
      let c ← regWrite3 c op.rd (U24.new value)
      let c := flagWrite c FLAG_ZERO (value &&& 0xFFFFFF == 0)
      some (flagWrite c FLAG_CARRY (value &&& 0x1000000 != 0))

  -- DEC
  | .DEC1 => do
      let rdv ← regRead c op.rd
      let value := wsub16 rdv 1
      let c ← regWrite c op.rd (value &&& 0xFF)
      let c := flagWrite c FLAG_ZERO (value &&& 0xFF == 0)
      some (flagWrite c FLAG_CARRY (value &&& 0xFF == 0xFF))
  | .DEC2 => do
      let rdv ← regRead2 c op.rd
      let value := wsub32 rdv 1
      let c ← regWrite2 c op.rd (value &&& 0xFFFF)
      let c := flagWrite c FLAG_ZERO (value &&& 0xFFFF == 0)
      some (flagWrite c FLAG_CARRY (value &&& 0xFFFF == 0xFFFF))
  | .DEC3 => do
      let rdv ← regRead3 c op.rd
      let value := U24.subU32 rdv 1
      let c ← regWrite3 c op.rd value
      let c := flagWrite c FLAG_ZERO (value.val == 0)
      some (flagWrite c FLAG_CARRY (value.val &&& 0xFFFFFF == 0xFFFFFF))

  -- JMP
  | .JMP =>
      let addr := U24.new (op.operands 0 ||| (op.operands 1) <<< 8 ||| (op.operands 2) <<< 16)
      some { c with pc := addr }
  | .JZ =>
      if flagRead c FLAG_ZERO then
        let addr := U24.new (op.operands 0 ||| (op.operands 1) <<< 8 ||| (op.operands 2) <<< 16)
        some { c with pc := addr }
      else some c

  -- STORE
  | .STORE1 => do
      let v ← regRead c op.rs
      memWrite c (op.read_u24 1) v
  | .STORE2 => do
      let v ← regRead2 c op.rs
      memWrite2 c (op.read_u24 1) v
  | .STORE3 => do
      let v ← regRead3 c op.rs
      memWrite3 c (op.read_u24 1) v

  -- `_ => panic!("OpCode not implemented")`
  | _ => none

/-- Outcome of one `Cpu::tick` (or of `Cpu::run`): next state, a typed fault
(with the CPU state at the fault), or a process abort. -/
inductive StepResult where
  | ok (c : Cpu)
  | fault (e : CpuError) (c : Cpu)
  | panicked

/-- Rust `Cpu::tick`: fetch, decode (`?` propagates the fault), execute. -/
def tick (c : Cpu) : StepResult :=
  match fetch c with
  | none => .panicked
  | some c1 =>
    match decode c1 with
    | .panicked => .panicked
    | .fault e c2 => .fault e c2
    | .ok op c2 =>
      match execute c2 op with
      | none => .panicked
      | some c3 => .ok c3

/-- Outcome of the bounded `run` loop; `outOfFuel` marks executions longer than
the supplied bound (the Rust loop has no bound). -/
inductive RunResult where
  | ok (c : Cpu)
  | fault (e : CpuError) (c : Cpu)
  | panicked
  | outOfFuel

/-- The `while self.is_running { self.tick()?; self.ic += 1; }` loop of
`Cpu::run`, bounded by fuel. -/
def runLoop : Nat → Cpu → RunResult
  | fuel, c =>
    if c.isRunning then
      match fuel with
      | 0 => .outOfFuel
      | n + 1 =>
        match tick c with
        | .ok c' => runLoop n { c' with ic := U24.addAssignU32 c'.ic 1 }
        | .fault e c' => .fault e c'
        | .panicked => .panicked
    else .ok c

/-- Rust `Cpu::run`: reset the instruction counter, set `is_running`, loop. -/
def run (fuel : Nat) (c : Cpu) : RunResult :=
  runLoop fuel { c with ic := U24.new 0, isRunning := true }

/-- Projection: did the step/run abort the process? -/
def RunResult.isPanic : RunResult → Bool
  | .panicked => true
  | _ => false

/-- Projection: did the tick abort the process? -/
def StepResult.isPanic : StepResult → Bool
  | .panicked => true
  | _ => false

/-- Projection: the typed error of a faulting run, if any. -/
def RunResult.error : RunResult → Option CpuError
  | .fault e _ => some e
  | _ => none

/-- Projection: the PC value of the final CPU state, if the run ended in a
state (success or typed fault). -/
def RunResult.pcVal : RunResult → Option Nat
  | .ok c => some c.pc.val
  | .fault _ c => some c.pc.val
  | _ => none

/-- Projection: a register cell of the resulting state of a tick. -/
def StepResult.regAt (r : StepResult) (i : Nat) : Option Nat :=
  match r with
  | .ok c => some (c.regs i)
  | _ => none

end Cpu

/-! ## Assembler AST and encoder (src/bin/rexta-asm/ast.rs, assembler.rs) -/

/-- Rust `Register` (ast.rs): `R0`..`R8`. -/
inductive Register where
  | R0 | R1 | R2 | R3 | R4 | R5 | R6 | R7 | R8
deriving DecidableEq, Repr, Fintype

/-- Rust `Register::encode`. -/
def Register.encode : Register → Nat
  | .R0 => 0 | .R1 => 1 | .R2 => 2 | .R3 => 3 | .R4 => 4
  | .R5 => 5 | .R6 => 6 | .R7 => 7 | .R8 => 8

/-- Rust `Address` (ast.rs): a resolved numeric address or a pending label name. -/
inductive Address where
  | addr (a : U24)
  | label (name : String)
deriving DecidableEq, Repr

/-- Rust `Instruction` (ast.rs): the assembler's instruction AST. -/
inductive Instruction where
  | ADD1 (rd rs : Register) | ADD2 (rd rs : Register) | ADD3 (rd rs : Register)
  | SUB1 (rd rs : Register) | SUB2 (rd rs : Register) | SUB3 (rd rs : Register)
  | AND1 (rd rs : Register) | AND2 (rd rs : Register) | AND3 (rd rs : Register)
  | OR1 (rd rs : Register) | OR2 (rd rs : Register) | OR3 (rd rs : Register)
  | XOR1 (rd rs : Register) | XOR2 (rd rs : Register) | XOR3 (rd rs : Register)
  | NOT1 (rd : Register) | NOT2 (rd : Register) | NOT3 (rd : Register)
  | LOADI1 (rd : Register) (imm : Nat)
  | LOADI2 (rd : Register) (imm : Nat)
  | LOADI3 (rd : Register) (imm : U24)
  | ADDI1 (rd : Register) (imm : Nat)
  | ADDI2 (rd : Register) (imm : Nat)
  | ADDI3 (rd : Register) (imm : U24)
  | MOV1 (rd rs : Register) | MOV2 (rd rs : Register) | MOV3 (rd rs : Register)
  | INC1 (rd : Register) | INC2 (rd : Register) | INC3 (rd : Register)
  | DEC1 (rd : Register) | DEC2 (rd : Register) | DEC3 (rd : Register)
  | NEG1 (rd : Register) | NEG2 (rd : Register) | NEG3 (rd : Register)
  | SHL1 (rd : Register) | SHL2 (rd : Register) | SHL3 (rd : Register)
  | SHR1 (rd : Register) | SHR2 (rd : Register) | SHR3 (rd : Register)
  | ROL1 (rd : Register) | ROL2 (rd : Register) | ROL3 (rd : Register)
  | ROR1 (rd : Register) | ROR2 (rd : Register) | ROR3 (rd : Register)
  | CMP1 (rd rs : Register) | CMP2 (rd rs : Register) | CMP3 (rd rs : Register)
  | TST1 (rd rs : Register) | TST2 (rd rs : Register) | TST3 (rd rs : Register)
  | PUSH1 (rs : Register) | PUSH2 (rs : Register) | PUSH3 (rs : Register)
  | POP1 (rd : Register) | POP2 (rd : Register) | POP3 (rd : Register)
  | LOAD1 (rd : Register) (addr : Address)
  | LOAD2 (rd : Register) (addr : Address)
  | LOAD3 (rd : Register) (addr : Address)
  | STORE1 (rs : Register) (addr : Address)
  | STORE2 (rs : Register) (addr : Address)
  | STORE3 (rs : Register) (addr : Address)
  | JMP (addr : Address) | JZ (addr : Address) | JC (addr : Address)
  | JNZ (addr : Address) | JNC (addr : Address) | JSR (addr : Address)
  | JMPA (addr : Address) | JZA (addr : Address) | JCA (addr : Address)
  | JNZA (addr : Address) | JNCA (addr : Address) | JSRA (addr : Address)
  | RTS | HLT

namespace Instruction

/-- Rust `Instruction::opcode` (ast.rs). -/
def opcode : Instruction → OpCode
  | HLT => .HLT
  | RTS => .RTS
  | ADD1 .. => .ADD1 | SUB1 .. => .SUB1 | AND1 .. => .AND1 | OR1 .. => .OR1
  | XOR1 .. => .XOR1 | MOV1 .. => .MOV1 | INC1 .. => .INC1 | DEC1 .. => .DEC1
  | NEG1 .. => .NEG1 | NOT1 .. => .NOT1 | SHL1 .. => .SHL1 | SHR1 .. => .SHR1
  | ROL1 .. => .ROL1 | ROR1 .. => .ROR1 | CMP1 .. => .CMP1 | TST1 .. => .TST1
  | PUSH1 .. => .PUSH1 | POP1 .. => .POP1
  | ADD2 .. => .ADD2 | SUB2 .. => .SUB2 | AND2 .. => .AND2 | OR2 .. => .OR2
  | XOR2 .. => .XOR2 | MOV2 .. => .MOV2 | INC2 .. => .INC2 | DEC2 .. => .DEC2
  | NEG2 .. => .NEG2 | NOT2 .. => .NOT2 | SHL2 .. => .SHL2 | SHR2 .. => .SHR2
  | ROL2 .. => .ROL2 | ROR2 .. => .ROR2 | CMP2 .. => .CMP2 | TST2 .. => .TST2
  | PUSH2 .. => .PUSH2 | POP2 .. => .POP2
  | ADD3 .. => .ADD3 | SUB3 .. => .SUB3 | AND3 .. => .AND3 | OR3 .. => .OR3
  | XOR3 .. => .XOR3 | MOV3 .. => .MOV3 | INC3 .. => .INC3 | DEC3 .. => .DEC3
  | NEG3 .. => .NEG3 | NOT3 .. => .NOT3 | SHL3 .. => .SHL3 | SHR3 .. => .SHR3
  | ROL3 .. => .ROL3 | ROR3 .. => .ROR3 | CMP3 .. => .CMP3 | TST3 .. => .TST3
  | PUSH3 .. => .PUSH3 | POP3 .. => .POP3
  | LOADI1 .. => .LOADI1 | ADDI1 .. => .ADDI1
  | JMP .. => .JMP | JZ .. => .JZ | JNZ .. => .JNZ
  | JC .. => .JC | JNC .. => .JNC | JSR .. => .JSR
  | LOADI2 .. => .LOADI2 | ADDI2 .. => .ADDI2
  | JMPA .. => .JMPA | JZA .. => .JZA | JNZA .. => .JNZA
  | JCA .. => .JCA | JNCA .. => .JNCA | JSRA .. => .JSRA
  | LOAD1 .. => .LOAD1 | STORE1 .. => .STORE1
  | LOAD2 .. => .LOAD2 | STORE2 .. => .STORE2
  | LOADI3 .. => .LOADI3 | LOAD3 .. => .LOAD3 | STORE3 .. => .STORE3
  | ADDI3 .. => .ADDI3

/-- Rust `Instruction::opcode_bytes`: the code as a little-endian `u16`. -/
def opcodeBytes (i : Instruction) : List Nat :=
  [i.opcode.toCode &&& 0xFF, (i.opcode.toCode >>> 8) &&& 0xFF]

/-- Rust `u16::to_le_bytes` of a 16-bit immediate. -/
def immToLe2 (imm : Nat) : List Nat := [imm &&& 0xFF, (imm >>> 8) &&& 0xFF]

/-- The operand bytes emitted by `Instruction::encode` (assembler.rs) after the
two opcode bytes. `none` models the `panic!("Label not resolved")` arms. -/
def operandBytes : Instruction → Option (List Nat)
  | NOT1 rd | NOT2 rd | NOT3 rd
  | INC1 rd | INC2 rd | INC3 rd
  | DEC1 rd | DEC2 rd | DEC3 rd
  | NEG1 rd | NEG2 rd | NEG3 rd
  | SHL1 rd | SHL2 rd | SHL3 rd
  | SHR1 rd | SHR2 rd | SHR3 rd
  | ROL1 rd | ROL2 rd | ROL3 rd
  | ROR1 rd | ROR2 rd | ROR3 rd
  | POP1 rd | POP2 rd | POP3 rd => some [rd.encode <<< 4]
  | PUSH1 rs | PUSH2 rs | PUSH3 rs => some [rs.encode]
  | ADD1 rd rs | SUB1 rd rs | AND1 rd rs | OR1 rd rs | XOR1 rd rs
  | ADD2 rd rs | SUB2 rd rs | AND2 rd rs | OR2 rd rs | XOR2 rd rs
  | ADD3 rd rs | SUB3 rd rs | AND3 rd rs | OR3 rd rs | XOR3 rd rs
  | MOV1 rd rs | MOV2 rd rs | MOV3 rd rs
  | CMP1 rd rs | CMP2 rd rs | CMP3 rd rs
  | TST1 rd rs | TST2 rd rs | TST3 rd rs => some [rs.encode ||| rd.encode <<< 4]
  | LOADI1 rd imm | ADDI1 rd imm => some [rd.encode <<< 4, imm]
  | LOADI2 rd imm | ADDI2 rd imm => some ([rd.encode <<< 4] ++ immToLe2 imm)
  | LOADI3 rd imm | ADDI3 rd imm => some ([rd.encode <<< 4] ++ imm.to_le_bytes)
  | LOAD1 rd addr | LOAD2 rd addr | LOAD3 rd addr =>
    match addr with
    | .addr a => some ([rd.encode <<< 4] ++ a.to_le_bytes)
    | .label _ => none
  | STORE1 rs addr | STORE2 rs addr | STORE3 rs addr =>
    match addr with
    | .addr a => some ([rs.encode] ++ a.to_le_bytes)
    | .label _ => none
  | JMP addr | JZ addr | JC addr | JNZ addr | JNC addr | JSR addr
  | JMPA addr | JZA addr | JCA addr | JNZA addr | JNCA addr | JSRA addr =>
    match addr with
    | .addr a => some a.to_le_bytes
    | .label _ => none
  | RTS | HLT => some []

/-- Rust `Instruction::encode`: opcode bytes followed by the operand bytes;
aborts (`none`) on an unresolved label. -/
def encode (i : Instruction) : Option (List Nat) :=
  (i.operandBytes).map (fun ops => i.opcodeBytes ++ ops)

/-- Rust `Instruction::length` (ast.rs): `((opcode as u16 & 0xE00) >> 9) + 2`. -/
def length (i : Instruction) : Nat :=
  ((i.opcode.toCode &&& 0xE00) >>> 9) + 2

end Instruction

/-- The label-substitution step of pass 2 in `assemble` (assembler.rs
lines 419-432): only `JMP`/`JZ`/`JC`/`JSR` have label operands replaced via the
label map; the `expect` on a missing label aborts (`none`); every other
instruction passes through unchanged. -/
def resolveLabels (labels : String → Option U24) (i : Instruction) : Option Instruction :=
  match i with
  | .JMP (.label name) => (labels name).map (fun a => .JMP (.addr a))
  | .JZ (.label name) => (labels name).map (fun a => .JZ (.addr a))
  | .JC (.label name) => (labels name).map (fun a => .JC (.addr a))
  | .JSR (.label name) => (labels name).map (fun a => .JSR (.addr a))
  | _ => some i

/-! ## Helper lemmas -/

/-- Bitwise AND distributes over OR on the left argument. -/
lemma nat_or_and_distrib (x y z : Nat) : (x ||| y) &&& z = (x &&& z) ||| (y &&& z) := by
  rw [Nat.and_comm, Nat.and_or_distrib_left, Nat.and_comm z x, Nat.and_comm z y]

/-- An OR with a nonzero operand is nonzero. -/
lemma nat_or_ne_zero_right {x a : Nat} (ha : a ≠ 0) : (x ||| a) ≠ 0 := by
  obtain ⟨i, hi⟩ := Nat.ne_zero_implies_bit_true ha
  intro h
  have hbit := congrArg (fun n => Nat.testBit n i) h
  simp [Nat.testBit_or, hi] at hbit

/-- Writing a flag bit with `|` makes `flags & flag` nonzero. -/
lemma nat_or_and_self_ne_zero (f a : Nat) (ha : a ≠ 0) : (f ||| a) &&& a ≠ 0 := by
  rw [nat_or_and_distrib, Nat.and_self]
  exact nat_or_ne_zero_right ha

/-- Masking with `n &&& MASK` keeps the value below `2^24`. -/
lemma u24_and_mask_lt (x : Nat) : x &&& U24.MASK < 2 ^ 24 :=
  Nat.and_lt_two_pow x (by norm_num [U24.MASK])

/-- A successful register read means the index is in bounds and returns the
stored cell. -/
lemma regRead_some_iff {c : Cpu} {r v : Nat} :
    Cpu.regRead c r = some v ↔ r < Cpu.REG_COUNT ∧ c.regs r = v := by
  unfold Cpu.regRead
  split <;> simp_all

/-- Setting the ZERO bit and then the CARRY bit leaves the ZERO bit set. -/
lemma flag_zero_set_after_or (f : Nat) : ((f ||| 1) ||| 2) &&& 1 ≠ 0 := by
  rw [nat_or_and_distrib, nat_or_and_distrib]
  have h1 : (1 : Nat) &&& 1 = 1 := by decide
  have h2 : (2 : Nat) &&& 1 = 0 := by decide
  rw [h1, h2, Nat.or_zero]
  exact nat_or_ne_zero_right one_ne_zero

/-- Clearing the ZERO bit and then setting the CARRY bit leaves ZERO clear. -/
lemma flag_zero_clear_then_carry (f : Nat) : ((f &&& 0xFE) ||| 2) &&& 1 = 0 := by
  rw [nat_or_and_distrib, Nat.and_assoc]
  have h1 : (0xFE : Nat) &&& 1 = 0 := by decide
  have h2 : (2 : Nat) &&& 1 = 0 := by decide
  rw [h1, h2, Nat.and_zero, Nat.or_self]

/-- After `flag_write(FLAG_CARRY, false)` the CARRY flag reads as clear. -/
lemma carry_false_of_flagWrite (c1 : Cpu) :
    Cpu.flagRead (Cpu.flagWrite c1 Cpu.FLAG_CARRY false) Cpu.FLAG_CARRY = false := by
  have h : (c1.flags &&& (Cpu.FLAG_CARRY ^^^ 0xFF)) &&& Cpu.FLAG_CARRY = 0 := by
    rw [Nat.and_assoc]
    have hx : (Cpu.FLAG_CARRY ^^^ 0xFF) &&& Cpu.FLAG_CARRY = 0 := by decide
    rw [hx, Nat.and_zero]
  simp [Cpu.flagRead, Cpu.flagWrite, h]

/-- Rust `pc += k` for a small increment on an in-range `U24` is plain addition
modulo `2^24`. -/
lemma addAssignU32_val_small (a : U24) (h : a.val < 2 ^ 24) (k : Nat) (hk : k < 2 ^ 24) :
    (U24.addAssignU32 a k).val = (a.val + k) % 2 ^ 24 := by
  have hm : U24.MASK = 2 ^ 24 - 1 := by norm_num [U24.MASK]
  have hkm : k &&& U24.MASK = k := by
    rw [hm]; exact Nat.and_pow_two_sub_one_of_lt_two_pow hk
  have h32 : a.val + k < 2 ^ 32 := by
    have hlt : a.val + k < 2 ^ 24 + 2 ^ 24 := by omega
    calc a.val + k < 2 ^ 24 + 2 ^ 24 := hlt
    _ ≤ 2 ^ 32 := by norm_num
  simp only [U24.addAssignU32, U24.wadd32, hkm]
  rw [Nat.mod_eq_of_lt h32, hm, Nat.and_pow_two_sub_one_eq_mod]

/-- The value field of any `U24.new` result is below `2^24`. -/
lemma u24_new_val_lt (v : Nat) : (U24.new v).val < 2 ^ 24 := u24_and_mask_lt v

/-! ## Claims -/

/-- C8: every `U24` construction and every `U24` addition/subtraction result is
masked to 24 bits, hence lies in `[0, 2^24)`, wrapping silently; in
particular `U24(0xFFFFFF) + 1 == U24(0)` (under both the `U24`- and the
`u32`-valued `Add` impls). -/
theorem c8_u24_wraparound :
    (∀ v : Nat, (U24.new v).val < 2 ^ 24) ∧
    (∀ a b : U24, (U24.add a b).val < 2 ^ 24 ∧ (U24.sub a b).val < 2 ^ 24) ∧
    (∀ (a : U24) (r : Nat),
      (U24.addU32 a r).val < 2 ^ 24 ∧ (U24.subU32 a r).val < 2 ^ 24 ∧
      (U24.addAssignU32 a r).val < 2 ^ 24 ∧ (U24.subAssignU32 a r).val < 2 ^ 24) ∧
    U24.add (U24.new 0xFFFFFF) (U24.new 1) = U24.new 0 ∧
    U24.addU32 (U24.new 0xFFFFFF) 1 = U24.new 0 := by
  refine ⟨fun v => u24_new_val_lt v,
    fun a b => ⟨u24_new_val_lt _, u24_new_val_lt _⟩,
    fun a r => ⟨u24_new_val_lt _, u24_new_val_lt _, u24_and_mask_lt _, u24_and_mask_lt _⟩,
    by decide, by decide⟩

/-- C3 counterexample: NOP is an `OpCode` variant whose code `0x0000` is in the
table, yet `TryFrom<u16>` rejects it — the numeric-to-symbolic decoding does
NOT succeed for every valid code. -/
theorem c3_nop_code_not_decodable :
    OpCode.tryFromU16 (OpCode.toCode OpCode.NOP) = none := by decide

set_option maxRecDepth 4096 in
/-- C3 (amended): the opcode table is a bijection per operation variant except
for NOP — every variant has exactly one code, no two distinct operations share
a code, and for every variant other than NOP the numeric decoding succeeds and
maps back to it (hence `encode(decode(code)) == code` on those codes); NOP's
code `0x0000` is not decodable. -/
theorem c3_opcode_bijection_except_nop :
    (∀ a b : OpCode, a.toCode = b.toCode → a = b) ∧
    (∀ op : OpCode, op ≠ OpCode.NOP → OpCode.tryFromU16 op.toCode = some op) ∧
    OpCode.tryFromU16 (OpCode.toCode OpCode.NOP) = none := by
  refine ⟨by decide, by decide, by decide⟩

/-- C3 witness: concrete instantiation of the amended bijection at `ADD1`. -/
theorem c3_opcode_bijection_except_nop_witness :
    OpCode.ADD1.toCode = OpCode.ADD1.toCode ∧ OpCode.ADD1 ≠ OpCode.NOP ∧
    OpCode.tryFromU16 OpCode.ADD1.toCode = some OpCode.ADD1 :=
  ⟨rfl, by decide, c3_opcode_bijection_except_nop.2.1 OpCode.ADD1 (by decide)⟩

/-- C9 counterexample: for `ADD1 R1, R2` (destination `R1`, source `R2`) the
encoder's operand byte is `0x12`, whose LOW nibble is the SOURCE register `R2`
(2), not the destination — refuting the claim that the destination occupies the
low nibble. -/
theorem c9_dest_not_in_low_nibble :
    (Instruction.ADD1 .R1 .R2).encode = some [0x01, 0x02, 0x12] ∧
    (0x12 &&& 0x0F) ≠ Register.encode .R1 ∧
    (0x12 &&& 0x0F) = Register.encode .R2 := by decide

/-- C9 (amended): for every register-pair instruction (binary ALU ops, MOV,
CMP, TST, at every width), the single operand byte emitted by the encoder is
`rs.encode | rd.encode << 4` — destination in the HIGH nibble, source in the
LOW nibble — and the CPU's accessors `Op::rd`/`Op::rs` read the destination
and source back from those same nibble positions. -/
theorem c9_regpair_nibble_layout (rd rs : Register) :
    ((Instruction.ADD1 rd rs).operandBytes = some [rs.encode ||| rd.encode <<< 4] ∧
     (Instruction.SUB1 rd rs).operandBytes = some [rs.encode ||| rd.encode <<< 4] ∧
     (Instruction.AND1 rd rs).operandBytes = some [rs.encode ||| rd.encode <<< 4] ∧
     (Instruction.OR1 rd rs).operandBytes = some [rs.encode ||| rd.encode <<< 4] ∧
     (Instruction.XOR1 rd rs).operandBytes = some [rs.encode ||| rd.encode <<< 4] ∧
     (Instruction.ADD2 rd rs).operandBytes = some [rs.encode ||| rd.encode <<< 4] ∧
     (Instruction.SUB2 rd rs).operandBytes = some [rs.encode ||| rd.encode <<< 4] ∧
     (Instruction.AND2 rd rs).operandBytes = some [rs.encode ||| rd.encode <<< 4] ∧
     (Instruction.OR2 rd rs).operandBytes = some [rs.encode ||| rd.encode <<< 4] ∧
     (Instruction.XOR2 rd rs).operandBytes = some [rs.encode ||| rd.encode <<< 4] ∧
     (Instruction.ADD3 rd rs).operandBytes = some [rs.encode ||| rd.encode <<< 4] ∧
     (Instruction.SUB3 rd rs).operandBytes = some [rs.encode ||| rd.encode <<< 4] ∧
     (Instruction.AND3 rd rs).operandBytes = some [rs.encode ||| rd.encode <<< 4] ∧
     (Instruction.OR3 rd rs).operandBytes = some [rs.encode ||| rd.encode <<< 4] ∧
     (Instruction.XOR3 rd rs).operandBytes = some [rs.encode ||| rd.encode <<< 4] ∧
     (Instruction.MOV1 rd rs).operandBytes = some [rs.encode ||| rd.encode <<< 4] ∧
     (Instruction.MOV2 rd rs).operandBytes = some [rs.encode ||| rd.encode <<< 4] ∧
     (Instruction.MOV3 rd rs).operandBytes = some [rs.encode ||| rd.encode <<< 4] ∧
     (Instruction.CMP1 rd rs).operandBytes = some [rs.encode ||| rd.encode <<< 4] ∧
     (Instruction.CMP2 rd rs).operandBytes = some [rs.encode ||| rd.encode <<< 4] ∧
     (Instruction.CMP3 rd rs).operandBytes = some [rs.encode ||| rd.encode <<< 4] ∧
     (Instruction.TST1 rd rs).operandBytes = some [rs.encode ||| rd.encode <<< 4] ∧
     (Instruction.TST2 rd rs).operandBytes = some [rs.encode ||| rd.encode <<< 4] ∧
     (Instruction.TST3 rd rs).operandBytes = some [rs.encode ||| rd.encode <<< 4]) ∧
    (Op.mk OpCode.ADD1 (fun _ => rs.encode ||| rd.encode <<< 4)).rd = rd.encode ∧
    (Op.mk OpCode.ADD1 (fun _ => rs.encode ||| rd.encode <<< 4)).rs = rs.encode := by
  refine ⟨⟨rfl, rfl, rfl, rfl, rfl, rfl, rfl, rfl, rfl, rfl, rfl, rfl, rfl, rfl, rfl,
    rfl, rfl, rfl, rfl, rfl, rfl, rfl, rfl, rfl⟩, ?_, ?_⟩ <;>
    (cases rd <;> cases rs <;> decide)

/-- C10: the assembler's second pass substitutes label operands with resolved
addresses only for JMP, JZ, JC, and JSR; every other instruction with an
address operand (JNZ, JNC, the absolute variants, LOAD, STORE) keeps its
label operand, and encoding such an instruction aborts with the
`Label not resolved` panic even when the label is in the map. -/
theorem c10_label_substitution_only_jmp_jz_jc_jsr
    (labels : String → Option U24) (name : String) (a : U24)
    (h : labels name = some a) (rd rs : Register) :
    (resolveLabels labels (.JMP (.label name)) = some (.JMP (.addr a)) ∧
     resolveLabels labels (.JZ (.label name)) = some (.JZ (.addr a)) ∧
     resolveLabels labels (.JC (.label name)) = some (.JC (.addr a)) ∧
     resolveLabels labels (.JSR (.label name)) = some (.JSR (.addr a))) ∧
    (resolveLabels labels (.JNZ (.label name)) = some (.JNZ (.label name)) ∧
     resolveLabels labels (.JNC (.label name)) = some (.JNC (.label name)) ∧
     resolveLabels labels (.JMPA (.label name)) = some (.JMPA (.label name)) ∧
     resolveLabels labels (.JZA (.label name)) = some (.JZA (.label name)) ∧
     resolveLabels labels (.JCA (.label name)) = some (.JCA (.label name)) ∧
     resolveLabels labels (.JNZA (.label name)) = some (.JNZA (.label name)) ∧
     resolveLabels labels (.JNCA (.label name)) = some (.JNCA (.label name)) ∧
     resolveLabels labels (.JSRA (.label name)) = some (.JSRA (.label name)) ∧
     resolveLabels labels (.LOAD1 rd (.label name)) = some (.LOAD1 rd (.label name)) ∧
     resolveLabels labels (.LOAD2 rd (.label name)) = some (.LOAD2 rd (.label name)) ∧
     resolveLabels labels (.LOAD3 rd (.label name)) = some (.LOAD3 rd (.label name)) ∧
     resolveLabels labels (.STORE1 rs (.label name)) = some (.STORE1 rs (.label name)) ∧
     resolveLabels labels (.STORE2 rs (.label name)) = some (.STORE2 rs (.label name)) ∧
     resolveLabels labels (.STORE3 rs (.label name)) = some (.STORE3 rs (.label name))) ∧
    ((Instruction.JNZ (.label name)).encode = none ∧
     (Instruction.JNC (.label name)).encode = none ∧
     (Instruction.JMPA (.label name)).encode = none ∧
     (Instruction.JZA (.label name)).encode = none ∧
     (Instruction.JCA (.label name)).encode = none ∧
     (Instruction.JNZA (.label name)).encode = none ∧
     (Instruction.JNCA (.label name)).encode = none ∧
     (Instruction.JSRA (.label name)).encode = none ∧
     (Instruction.LOAD1 rd (.label name)).encode = none ∧
     (Instruction.LOAD2 rd (.label name)).encode = none ∧
     (Instruction.LOAD3 rd (.label name)).encode = none ∧
     (Instruction.STORE1 rs (.label name)).encode = none ∧
     (Instruction.STORE2 rs (.label name)).encode = none ∧
     (Instruction.STORE3 rs (.label name)).encode = none) := by
  refine ⟨⟨?_, ?_, ?_, ?_⟩, ?_, ?_⟩
  · simp [resolveLabels, h]
  · simp [resolveLabels, h]
  · simp [resolveLabels, h]
  · simp [resolveLabels, h]
  · exact ⟨rfl, rfl, rfl, rfl, rfl, rfl, rfl, rfl, rfl, rfl, rfl, rfl, rfl, rfl⟩
  · exact ⟨rfl, rfl, rfl, rfl, rfl, rfl, rfl, rfl, rfl, rfl, rfl, rfl, rfl, rfl⟩

/-- C10 witness: concrete label map sending "loop" to address 6, applied to
the substitution theorem with registers `R0`/`R1`. -/
theorem c10_label_substitution_witness :
    ((fun s => if s = "loop" then some (U24.new 6) else none) "loop" = some (U24.new 6)) ∧
    resolveLabels (fun s => if s = "loop" then some (U24.new 6) else none)
      (.JMP (.label "loop")) = some (.JMP (.addr (U24.new 6))) ∧
    resolveLabels (fun s => if s = "loop" then some (U24.new 6) else none)
      (.JNZ (.label "loop")) = some (.JNZ (.label "loop")) ∧
    (Instruction.JNZ (.label "loop")).encode = none := by
  have hmap : (fun s => if s = "loop" then some (U24.new 6) else none) "loop"
      = some (U24.new 6) := by simp
  have happ := c10_label_substitution_only_jmp_jz_jc_jsr
    (fun s => if s = "loop" then some (U24.new 6) else none) "loop" (U24.new 6) hmap
    Register.R0 Register.R1
  exact ⟨hmap, happ.1.1, happ.2.1.1, happ.2.2.1⟩

/-- C1: the decode/encode round trip FAILS for 24-bit operands with a nonzero
high byte, because `Op::read_u24` combines the third operand byte without the
`<< 16` shift. `LOADI3 R0, 0x010000` encodes to
`[0x03, 0x08, 0x00, 0x00, 0x00, 0x01]`; the decoder's 24-bit accessor reads
those operand bytes back as `0x000001`, and executing the decoded instruction
loads `0x000001` (registers `[1, 0, 0]`) instead of `0x010000`
(registers `[0, 0, 1]`). -/
theorem c1_read_u24_drops_high_byte :
    (Instruction.LOADI3 .R0 (U24.new 0x010000)).encode =
      some [0x03, 0x08, 0x00, 0x00, 0x00, 0x01] ∧
    (Op.mk OpCode.LOADI3 (fun j => [0x00, 0x00, 0x00, 0x01].getD j 0)).read_u24 1
      = U24.new 0x000001 ∧
    U24.new 0x000001 ≠ U24.new 0x010000 ∧
    ((Cpu.tick { Cpu.new with
        mem := fun a => [0x03, 0x08, 0x00, 0x00, 0x00, 0x01].getD a 0 }).regAt 0 = some 1 ∧
     (Cpu.tick { Cpu.new with
        mem := fun a => [0x03, 0x08, 0x00, 0x00, 0x00, 0x01].getD a 0 }).regAt 1 = some 0 ∧
     (Cpu.tick { Cpu.new with
        mem := fun a => [0x03, 0x08, 0x00, 0x00, 0x00, 0x01].getD a 0 }).regAt 2 = some 0) := by
  decide

/-- C4: `run()` does NOT always return a typed result — `Cpu::execute`'s
catch-all arm aborts the process for table-listed opcodes it does not
implement. `MOV1` (code `0x0215`, present in the opcode table) decodes fine,
but executing it aborts instead of producing `Ok`/`Err`. -/
theorem c4_unimplemented_opcode_aborts :
    OpCode.tryFromU16 0x0215 = some OpCode.MOV1 ∧
    (Cpu.tick { Cpu.new with
        mem := fun a => [0x15, 0x02, 0x00].getD a 0 }).isPanic = true := by
  decide

/-- C6: executing `JSR` does not push a return address and jump — `JSR`
(code `0x0614`, present in the opcode table) falls into `Cpu::execute`'s
catch-all abort arm, so no JSR/RTS pair can restore PC and SP. -/
theorem c6_jsr_aborts :
    OpCode.tryFromU16 0x0614 = some OpCode.JSR ∧
    (Cpu.tick { Cpu.new with
        mem := fun a => [0x14, 0x06, 0x06, 0x00, 0x00].getD a 0 }).isPanic = true := by
  decide

/-- C7 counterexample: running over memory filled with `0xFF` faults with
`InvalidOpCode 0xFFFF` (the error carries only the raw code), but the CPU's PC
then reads 2 — the fetch already advanced it past the faulting opcode word at
address 0 — refuting "PC equals the address of the faulting opcode itself". -/
theorem c7_fault_pc_past_faulting_opcode :
    (Cpu.run 1 { Cpu.new with mem := fun _ => 0xFF }).error
      = some (CpuError.InvalidOpCode 0xFFFF) ∧
    (Cpu.run 1 { Cpu.new with mem := fun _ => 0xFF }).pcVal = some 2 ∧
    (2 : Nat) ≠ 0 := by
  decide

/-- C7 (amended): whenever the 16-bit word fetched at PC is not a valid
opcode, `run()` returns the `InvalidOpCode` fault carrying the raw fetched
code (and nothing else — the error has no PC field), and the CPU's PC at that
point equals the faulting address plus 2 (one opcode word past it). -/
theorem c7_invalid_opcode_fault (c : Cpu) (fuel : Nat)
    (hpc : c.pc.val + 2 ≤ Cpu.MEM_SIZE) (hlt : c.pc.val < 2 ^ 24)
    (hbad : OpCode.tryFromU16 (c.mem c.pc.val ||| (c.mem (c.pc.val + 1)) <<< 8) = none) :
    (Cpu.run (fuel + 1) c).error
      = some (CpuError.InvalidOpCode (c.mem c.pc.val ||| (c.mem (c.pc.val + 1)) <<< 8)) ∧
    (Cpu.run (fuel + 1) c).pcVal = some ((c.pc.val + 2) % 2 ^ 24) := by
  have hmask : (2 : Nat) &&& U24.MASK = 2 := by decide
  have hlt32 : c.pc.val + 2 < 2 ^ 32 := by
    have h24 := hlt
    norm_num at h24 ⊢
    omega
  have hpcval : (U24.addAssignU32 c.pc 2).val = (c.pc.val + 2) % 2 ^ 24 := by
    simp only [U24.addAssignU32, U24.wadd32, hmask]
    rw [Nat.mod_eq_of_lt hlt32]
    have hm : U24.MASK = 2 ^ 24 - 1 := by norm_num [U24.MASK]
    rw [hm, Nat.and_pow_two_sub_one_eq_mod]
  simp only [Cpu.run, Cpu.runLoop, Cpu.tick, Cpu.fetch, Cpu.decode, hpc, hbad,
    if_true, if_pos]
  simp [Cpu.RunResult.error, Cpu.RunResult.pcVal, hbad, hpcval]

/-- C7 witness: the amended fault theorem applied to the all-`0xFF` memory. -/
theorem c7_invalid_opcode_fault_witness :
    ({ Cpu.new with mem := fun _ => 0xFF } : Cpu).pc.val + 2 ≤ Cpu.MEM_SIZE ∧
    ({ Cpu.new with mem := fun _ => 0xFF } : Cpu).pc.val < 2 ^ 24 ∧
    OpCode.tryFromU16 0xFFFF = none ∧
    (Cpu.run (0 + 1) { Cpu.new with mem := fun _ => 0xFF }).error
      = some (CpuError.InvalidOpCode 0xFFFF) ∧
    (Cpu.run (0 + 1) { Cpu.new with mem := fun _ => 0xFF }).pcVal = some 2 := by
  refine ⟨by decide, by decide, by decide, ?_⟩
  have happ := c7_invalid_opcode_fault { Cpu.new with mem := fun _ => 0xFF } 0
    (by decide) (by decide) (by decide)
  exact happ

/-- C5: 1-byte flag semantics — `ADD1` on destination `0xFF` and source `0x01`
yields destination `0x00` with ZERO and CARRY set; `SUB1` on destination
`0x00` and source `0x01` yields `0xFF` with CARRY set and ZERO clear; and
every successfully executed AND/OR/XOR instruction of any width leaves CARRY
clear. -/
theorem c5_flag_semantics :
    (∀ (c : Cpu) (op : Op), op.code = OpCode.ADD1 →
      Cpu.regRead c op.rd = some 0xFF → Cpu.regRead c op.rs = some 0x01 →
      ∃ c', Cpu.execute c op = some c' ∧ Cpu.regRead c' op.rd = some 0x00 ∧
        Cpu.flagRead c' Cpu.FLAG_ZERO = true ∧ Cpu.flagRead c' Cpu.FLAG_CARRY = true) ∧
    (∀ (c : Cpu) (op : Op), op.code = OpCode.SUB1 →
      Cpu.regRead c op.rd = some 0x00 → Cpu.regRead c op.rs = some 0x01 →
      ∃ c', Cpu.execute c op = some c' ∧ Cpu.regRead c' op.rd = some 0xFF ∧
        Cpu.flagRead c' Cpu.FLAG_CARRY = true ∧ Cpu.flagRead c' Cpu.FLAG_ZERO = false) ∧
    (∀ (c : Cpu) (op : Op) (c' : Cpu),
      (op.code = OpCode.AND1 ∨ op.code = OpCode.AND2 ∨ op.code = OpCode.AND3 ∨
       op.code = OpCode.OR1 ∨ op.code = OpCode.OR2 ∨ op.code = OpCode.OR3 ∨
       op.code = OpCode.XOR1 ∨ op.code = OpCode.XOR2 ∨ op.code = OpCode.XOR3) →
      Cpu.execute c op = some c' → Cpu.flagRead c' Cpu.FLAG_CARRY = false) := by
  refine ⟨?_, ?_, ?_⟩
  · intro c op hcode hrd hrs
    obtain ⟨hrdlt, _⟩ := regRead_some_iff.mp hrd
    have hstep : Cpu.execute c op = some
        (Cpu.flagWrite (Cpu.flagWrite
          { c with regs := fun i => if i = op.rd then 0 else c.regs i }
          Cpu.FLAG_ZERO true) Cpu.FLAG_CARRY true) := by
      simp [Cpu.execute, hcode, hrd, hrs, Cpu.regWrite, hrdlt]
    refine ⟨_, hstep, ?_, ?_, ?_⟩
    · simp [Cpu.flagWrite, Cpu.regRead, hrdlt]
    · simp only [Cpu.flagWrite, if_true]
      simp only [Cpu.flagRead, Cpu.FLAG_ZERO, Cpu.FLAG_CARRY, bne_iff_ne, ne_eq]
      exact flag_zero_set_after_or c.flags
    · simp only [Cpu.flagWrite, if_true]
      simp only [Cpu.flagRead, Cpu.FLAG_ZERO, Cpu.FLAG_CARRY, bne_iff_ne, ne_eq]
      exact nat_or_and_self_ne_zero (c.flags ||| 1) 2 (by decide)
  · intro c op hcode hrd hrs
    obtain ⟨hrdlt, _⟩ := regRead_some_iff.mp hrd
    have hstep : Cpu.execute c op = some
        (Cpu.flagWrite (Cpu.flagWrite
          { c with regs := fun i => if i = op.rd then 0xFF else c.regs i }
          Cpu.FLAG_ZERO false) Cpu.FLAG_CARRY true) := by
      simp [Cpu.execute, hcode, hrd, hrs, Cpu.regWrite, hrdlt, Cpu.wsub16]
    refine ⟨_, hstep, ?_, ?_, ?_⟩
    · simp [Cpu.flagWrite, Cpu.regRead, hrdlt]
    · simp only [Cpu.flagWrite, if_true, if_false]
      simp only [Cpu.flagRead, Cpu.FLAG_ZERO, Cpu.FLAG_CARRY, bne_iff_ne, ne_eq]
      exact nat_or_and_self_ne_zero _ 2 (by decide)
    · simp only [Cpu.flagWrite, if_true, if_false]
      simp only [Cpu.flagRead, Cpu.FLAG_ZERO, Cpu.FLAG_CARRY, bne_eq_false_iff_eq]
      have hx : (1 : Nat) ^^^ 0xFF = 0xFE := by decide
      rw [hx]
      exact flag_zero_clear_then_carry c.flags
  · intro c op c' hcode hexec
    rcases hcode with h | h | h | h | h | h | h | h | h <;>
      (simp only [Cpu.execute, h] at hexec
       obtain ⟨rdv, h1, hexec⟩ := Option.bind_eq_some.mp hexec
       obtain ⟨rsv, h2, hexec⟩ := Option.bind_eq_some.mp hexec
       obtain ⟨cw, h3, hexec⟩ := Option.bind_eq_some.mp hexec
       exact Option.some.inj hexec ▸ carry_false_of_flagWrite _)

/-- C5 witness: the flag theorem applied at concrete register files and
operand bytes (`rd = R0`, `rs = R1`). -/
theorem c5_flag_semantics_witness :
    ((Op.mk OpCode.ADD1 (fun _ => 0x01)).code = OpCode.ADD1 ∧
     Cpu.regRead { Cpu.new with regs := fun i => if i = 0 then 0xFF else if i = 1 then 1 else 0 }
       (Op.mk OpCode.ADD1 (fun _ => 0x01)).rd = some 0xFF ∧
     Cpu.regRead { Cpu.new with regs := fun i => if i = 0 then 0xFF else if i = 1 then 1 else 0 }
       (Op.mk OpCode.ADD1 (fun _ => 0x01)).rs = some 0x01 ∧
     (∃ c', Cpu.execute
         { Cpu.new with regs := fun i => if i = 0 then 0xFF else if i = 1 then 1 else 0 }
         (Op.mk OpCode.ADD1 (fun _ => 0x01)) = some c' ∧
       Cpu.regRead c' (Op.mk OpCode.ADD1 (fun _ => 0x01)).rd = some 0x00 ∧
       Cpu.flagRead c' Cpu.FLAG_ZERO = true ∧ Cpu.flagRead c' Cpu.FLAG_CARRY = true)) ∧
    (∃ c', Cpu.execute { Cpu.new with regs := fun i => if i = 1 then 1 else 0 }
         (Op.mk OpCode.SUB1 (fun _ => 0x01)) = some c' ∧
       Cpu.regRead c' (Op.mk OpCode.SUB1 (fun _ => 0x01)).rd = some 0xFF ∧
       Cpu.flagRead c' Cpu.FLAG_CARRY = true ∧ Cpu.flagRead c' Cpu.FLAG_ZERO = false) ∧
    (∃ c', Cpu.execute Cpu.new (Op.mk OpCode.AND1 (fun _ => 0x01)) = some c' ∧
       Cpu.flagRead c' Cpu.FLAG_CARRY = false) := by
  refine ⟨⟨rfl, by decide, by decide, ?_⟩, ?_, ?_⟩
  · exact c5_flag_semantics.1 _ _ rfl (by decide) (by decide)
  · exact c5_flag_semantics.2.1 _ _ rfl (by decide) (by decide)
  · exact ⟨_, rfl, c5_flag_semantics.2.2 Cpu.new (Op.mk OpCode.AND1 (fun _ => 0x01)) _
      (Or.inl rfl) rfl⟩

/-- The operand-read loop of `Cpu::decode` advances PC by exactly the
requested byte count (modulo the 24-bit address space). -/
lemma readOperands_pc_advance :
    ∀ (n i : Nat) (c : Cpu) (op op' : Op) (c' : Cpu),
      c.pc.val < 2 ^ 24 →
      Cpu.readOperands n i c op = some (op', c') →
      c'.pc.val = (c.pc.val + n) % 2 ^ 24 := by
  intro n
  induction n with
  | zero =>
    intro i c op op' c' hlt h
    unfold Cpu.readOperands at h
    cases Option.some.inj h
    rw [Nat.add_zero, Nat.mod_eq_of_lt hlt]
  | succ n ih =>
    intro i c op op' c' hlt h
    unfold Cpu.readOperands at h
    rcases hm : Cpu.memRead c c.pc with _ | b
    · rw [hm] at h
      simp at h
    · rw [hm] at h
      have hpc1 : (U24.addAssignU32 c.pc 1).val = (c.pc.val + 1) % 2 ^ 24 :=
        addAssignU32_val_small c.pc hlt 1 (by norm_num)
      have hlt' : (U24.addAssignU32 c.pc 1).val < 2 ^ 24 := by
        rw [hpc1]; exact Nat.mod_lt _ (by norm_num)
      have hrec := ih (i + 1) _ _ op' c' hlt' h
      rw [hpc1, Nat.mod_add_mod] at hrec
      rw [hrec]
      congr 1
      omega

/-- C2: for every opcode the operand byte count is `(code & 0xE00) >> 9`,
always in `[0, 4]`; the encoder emits exactly that many operand bytes after
the 2 opcode bytes; the pass-1 `Instruction::length` is 2 plus that count;
and the CPU decoder advances PC past exactly that many operand bytes, computed
from the fetched code word alone. -/
theorem c2_operand_count_agreement :
    (∀ opc : OpCode, (opc.toCode &&& 0xE00) >>> 9 ≤ 4) ∧
    (∀ (i : Instruction) (bs : List Nat), i.encode = some bs →
      bs.length = 2 + ((i.opcode.toCode &&& 0xE00) >>> 9)) ∧
    (∀ i : Instruction, i.length = 2 + ((i.opcode.toCode &&& 0xE00) >>> 9)) ∧
    (∀ (c : Cpu) (op : Op) (c' : Cpu), c.pc.val < 2 ^ 24 → Cpu.decode c = .ok op c' →
      c'.pc.val = (c.pc.val + ((c.ir &&& 0xE00) >>> 9)) % 2 ^ 24) := by
  refine ⟨by decide, ?_, ?_, ?_⟩
  · intro i bs h
    cases i <;>
      simp only [Instruction.encode, Instruction.operandBytes] at h <;>
      (try split at h) <;>
      (first
        | (simp at h; done)
        | (simp only [Option.map_some', Option.some.injEq] at h
           subst h
           simp [Instruction.opcodeBytes, Instruction.opcode, OpCode.toCode,
             U24.to_le_bytes, Instruction.immToLe2]
           try decide))
  · intro i
    simp [Instruction.length, Nat.add_comm]
  · intro c op c' hlt hdec
    simp only [Cpu.decode] at hdec
    split at hdec
    · exact Cpu.DecodeResult.noConfusion hdec
    next opc htf =>
      split at hdec
      · exact Cpu.DecodeResult.noConfusion hdec
      next op0 c0 hro =>
        cases hdec
        exact readOperands_pc_advance _ _ _ _ _ _ hlt hro

/-- C2 witness: the agreement applied to `HLT`'s encoding (0 operand bytes)
and a concrete decode of a `JMP` word (3 operand bytes). -/
theorem c2_operand_count_agreement_witness :
    Instruction.HLT.encode = some [0x04, 0x00] ∧
    ([0x04, 0x00] : List Nat).length = 2 + ((Instruction.HLT.opcode.toCode &&& 0xE00) >>> 9) ∧
    ({ Cpu.new with ir := 0x0600 } : Cpu).pc.val < 2 ^ 24 ∧
    (∃ op c', Cpu.decode { Cpu.new with ir := 0x0600 } = .ok op c' ∧
      c'.pc.val = (({ Cpu.new with ir := 0x0600 } : Cpu).pc.val +
        ((({ Cpu.new with ir := 0x0600 } : Cpu).ir &&& 0xE00) >>> 9)) % 2 ^ 24) := by
  refine ⟨?_, ?_, by decide, ?_⟩
  · rfl
  · exact c2_operand_count_agreement.2.1 Instruction.HLT [0x04, 0x00] rfl
  · exact ⟨_, _, rfl, c2_operand_count_agreement.2.2.2 { Cpu.new with ir := 0x0600 } _ _
      (by decide) rfl⟩

end Rexta
